import Mathlib

/-!
Verification of the `01-todo` Django application (apps `todos`):
a shallow embedding of the model, form, views and url routing,
together with theorems about the behavioral contract.

Sources embedded:
  * `todos/views.py`   — `TodoListView`, `TodoCreateView`, `TodoUpdateView`,
    `TodoDeleteView`, `toggle_resolved`
  * `todos/forms.py`   — `TodoForm` (field list)
  * `todos/urls.py`    — `urlpatterns`
  * `todos/tests.py`   — concrete scenarios re-played against the embedding

The `Todo` model itself (`todos/models.py`) is not part of the available
source tree; its fields, defaults and ordering are modelled from the spec
(see the doc comments marked "Modelled from the spec").

Python `int`/`float` arithmetic in `TodoListView.get_context_data` is
embedded exactly: IEEE-754 binary64 values are represented as exact
dyadic rationals `m * 2^g` and every operation rounds to nearest, ties
to even, on a 53-bit mantissa.
-/

/-! ## String helpers (Django form `CharField` stripping, `int` url converter) -/

/-- Whitespace test used when stripping a submitted text field. -/
def isSpaceChar (c : Char) : Bool :=
  c == ' ' || c == '\t' || c == '\n' || c == '\r'

/-- Leading/trailing-whitespace stripping applied to submitted `title`
values (Django `CharField` strips by default). -/
def strip (s : String) : String :=
  String.mk (((s.toList.dropWhile isSpaceChar).reverse.dropWhile isSpaceChar).reverse)

/-- Digit-string test: the language of the `<int:...>` path converter
(one or more decimal digits). -/
def isIntParam (s : String) : Bool :=
  !s.toList.isEmpty && s.toList.all Char.isDigit

/-- Decimal value of a digit string (used by the `<int:pk>` converter). -/
def digitsToNat (s : String) : Nat :=
  s.toList.foldl (fun acc c => 10 * acc + (c.toNat - 48)) 0

/-! ## Data model

Modelled from the spec: `todos/models.py` is not in the source tree.
The spec gives the `Todo` entity the attributes `id` (unique, store
assigned), `title` (required text), `description` (optional text, absent
distinct from empty), `due_date` (optional calendar date), `is_resolved`
(boolean, default `false`) and `created_at` (creation timestamp used as
the ascending ordering key of listings). Calendar dates are year/month/day
triples; `created_at` is an abstract monotone timestamp. -/

/-- A persisted to-do record. Modelled from the spec: field set and
optionality of `todos/models.py`, which is absent from the source tree. -/
structure Todo where
  id : Nat
  title : String
  description : Option String
  due_date : Option (Nat × Nat × Nat)
  is_resolved : Bool
  created_at : Nat
deriving DecidableEq

/-- The persistent store: the table of `Todo` rows plus the
auto-increment counter used for fresh `id`s / `created_at` stamps. -/
structure Store where
  todos : List Todo
  counter : Nat
deriving DecidableEq

/-- The empty store (fresh database). -/
def emptyStore : Store := { todos := [], counter := 1 }

/-! ## Forms and validation (`todos/forms.py` and §4.1 of the spec) -/

/-- Raw field values of one POST submission; `none` means the key is
absent from the submitted data. -/
structure Submission where
  title : Option String
  description : Option String
  due_date : Option String
  is_resolved : Option Bool
deriving DecidableEq

/-- `TodoForm.Meta.fields` from `todos/forms.py`. -/
def todoFormFields : List String :=
  ["title", "description", "due_date", "is_resolved"]

/-- The fields of the form served by `TodoCreateView`: `get_form` pops
`is_resolved` from the `TodoForm` instance (`todos/views.py`). -/
def createFormFields : List String :=
  todoFormFields.erase "is_resolved"

/-- Field values after successful validation. -/
structure CleanedForm where
  title : String
  description : Option String
  due_date : Option (Nat × Nat × Nat)
  is_resolved : Bool
deriving DecidableEq

/-- Modelled from the spec: the error message attached to a missing,
empty or whitespace-only `title`. -/
def requiredFieldError : String := "required field"

/-- Modelled from the spec: the error message attached to a `due_date`
that does not parse in the configured year-month-day format. -/
def formatError : String := "format error"

/-- Validation of the `title` field: required, whitespace-stripped,
rejecting missing / empty / whitespace-only input. -/
def cleanTitle (raw : Option String) : Except String String :=
  match raw with
  | none => Except.error requiredFieldError
  | some s => if strip s = "" then Except.error requiredFieldError else Except.ok (strip s)

/-- Validation of the `description` field: optional, any text accepted,
absent stays absent (distinct from empty string). -/
def cleanDescription (raw : Option String) : Option String := raw

/-- Parse a year-month-day date string; month and day are range checked. -/
def parseDate (s : String) : Option (Nat × Nat × Nat) :=
  match s.splitOn "-" with
  | [y, m, d] =>
    if isIntParam y && isIntParam m && isIntParam d then
      let mm := digitsToNat m
      let dd := digitsToNat d
      if 1 ≤ mm ∧ mm ≤ 12 ∧ 1 ≤ dd ∧ dd ≤ 31 then some (digitsToNat y, mm, dd) else none
    else none
  | _ => none

/-- Validation of the `due_date` field: optional; a present value must
parse as a calendar date, otherwise a format error is raised. -/
def cleanDueDate (raw : Option String) : Except String (Option (Nat × Nat × Nat)) :=
  match raw with
  | none => Except.ok none
  | some s =>
    match parseDate s with
    | some d => Except.ok (some d)
    | none => Except.error formatError

/-- Validation of the `is_resolved` checkbox: absent means `false`. -/
def cleanResolved (raw : Option Bool) : Bool := raw.getD false

/-- Form validation: clean every field of the form, collecting
field-level errors. `includeResolved` is `true` for the full `TodoForm`
(update view) and `false` for the create form, whose field set excludes
`is_resolved`, so the create path always cleans it to `false`. -/
def validate (includeResolved : Bool) (sub : Submission) :
    Except (List (String × String)) CleanedForm :=
  match cleanTitle sub.title, cleanDueDate sub.due_date with
  | Except.ok t, Except.ok dd =>
    Except.ok
      { title := t
        description := cleanDescription sub.description
        due_date := dd
        is_resolved := if includeResolved then cleanResolved sub.is_resolved else false }
  | Except.error e, Except.ok _ => Except.error [("title", e)]
  | Except.ok _, Except.error e2 => Except.error [("due_date", e2)]
  | Except.error e, Except.error e2 => Except.error [("title", e), ("due_date", e2)]

/-! ## Responses and routing (`todos/urls.py`) -/

/-- The externally observable outcome of one request. -/
inductive Resp where
  | redirect (path : String)
  | ok (errors : List (String × String))
  | notFound
deriving DecidableEq

/-- The url of the list view: `path('', TodoListView, name='todo_list')`
mounted at the site root. -/
def todo_list_url : String := "/"

/-- The view a routed request is dispatched to. -/
inductive Handler where
  | listView
  | createView
  | updateView (pk : Nat)
  | deleteView (pk : Nat)
  | toggleView (pk : Nat)
deriving DecidableEq

/-- `urlpatterns` of `todos/urls.py`: a request path, given as its slash
separated segments, resolves to a handler or to nothing. The `<int:pk>`
converter only matches a nonempty all-digit segment. -/
def resolvePath (segs : List String) : Option Handler :=
  match segs with
  | [] => some Handler.listView
  | ["create"] => some Handler.createView
  | [p, "update"] =>
    if isIntParam p then some (Handler.updateView (digitsToNat p)) else none
  | [p, "delete"] =>
    if isIntParam p then some (Handler.deleteView (digitsToNat p)) else none
  | [p, "toggle"] =>
    if isIntParam p then some (Handler.toggleView (digitsToNat p)) else none
  | _ => none

/-! ## Store primitives -/

/-- `Todo.objects.get(pk=pk)` / `get_object_or_404`: the first row whose
primary key matches. -/
def findTodo (s : Store) (pk : Nat) : Option Todo :=
  s.todos.find? (fun t => t.id == pk)

/-- Apply `f` to every row whose primary key is `pk` (an UPDATE by pk). -/
def setById (l : List Todo) (pk : Nat) (f : Todo → Todo) : List Todo :=
  l.map (fun t => if t.id = pk then f t else t)

/-- `Todo.objects.create(...)`: append a fresh row, stamping `id` and
`created_at` from the auto-increment counter. Modelled from the spec:
`is_resolved` defaults to `false` when not given. -/
def objectsCreate (s : Store) (title : String) (description : Option String)
    (due_date : Option (Nat × Nat × Nat)) (is_resolved : Bool) : Store :=
  { todos := s.todos ++
      [{ id := s.counter, title := title, description := description,
         due_date := due_date, is_resolved := is_resolved, created_at := s.counter }]
    counter := s.counter + 1 }

/-- Modelled from the spec: the default ordering of `Todo.objects.all()`
(the model Meta ordering of the absent `todos/models.py`) is by creation
time ascending, oldest first. Insertion sort by `created_at`. -/
def insertByCreated (t : Todo) : List Todo → List Todo
  | [] => [t]
  | h :: rest =>
    if t.created_at ≤ h.created_at then t :: h :: rest else h :: insertByCreated t rest

/-- Insertion sort of the rows by `created_at` ascending. -/
def sortByCreated : List Todo → List Todo
  | [] => []
  | h :: rest => insertByCreated h (sortByCreated rest)

/-- `Todo.objects.all()` in default order: the rows sorted by
`created_at` ascending (modelled from the spec, see `insertByCreated`). -/
def objectsAll (s : Store) : List Todo := sortByCreated s.todos

/-! ## Exact IEEE-754 binary64 model

`TodoListView.get_context_data` computes
`int((resolved_todos / total_todos * 100))` with Python `float`
arithmetic. A nonnegative finite binary64 value is an exact dyadic
rational `m * 2^g`; `/` and `*` round their exact rational result to
nearest, ties to even, at 53 significant bits, and `int(_)` truncates
toward zero. -/

/-- Fueled bit-length recursion. -/
def nbitsAux : Nat → Nat → Nat
  | 0, _ => 0
  | f + 1, n => if n = 0 then 0 else nbitsAux f (n / 2) + 1

/-- Bit length of a natural number: `nbits n = ⌊log2 n⌋ + 1` for `n ≥ 1`. -/
def nbits (n : Nat) : Nat := nbitsAux n n

/-- `⌊log2 (num / den)⌋` for positive `num`, `den`, computed from the two
bit lengths plus one comparison. -/
def floorLog2Rat (num den : Nat) : Int :=
  let d : Int := (nbits num : Int) - (nbits den : Int)
  if den * 2 ^ d.toNat ≤ num * 2 ^ (-d).toNat then d else d - 1

/-- A nonnegative binary64 value as the exact dyadic rational `m * 2^g`. -/
structure Dbl where
  m : Nat
  g : Int
deriving DecidableEq

/-- Round the positive rational `num / den` to 53 significant bits,
nearest, ties to even. -/
def roundMantissa (num den : Nat) : Dbl :=
  let g : Int := floorLog2Rat num den - 52
  let sn := num * 2 ^ (-g).toNat
  let sd := den * 2 ^ g.toNat
  let F := sn / sd
  let R := sn % sd
  let m := if 2 * R < sd then F
           else if sd < 2 * R then F + 1
           else if F % 2 = 0 then F else F + 1
  { m := m, g := g }

/-- The binary64 value nearest to the nonnegative rational `num / den`. -/
def ratToDouble (num den : Nat) : Dbl :=
  if num = 0 then { m := 0, g := 0 } else roundMantissa num den

/-- Python true division of two nonnegative machine integers:
the correctly rounded binary64 quotient. -/
def pyDiv (a b : Nat) : Dbl := ratToDouble a b

/-- Python multiplication of a binary64 value by a small integer
(exactly representable), correctly rounded. -/
def dblMulNat (x : Dbl) (k : Nat) : Dbl :=
  ratToDouble (x.m * k * 2 ^ x.g.toNat) (2 ^ (-x.g).toNat)

/-- Python `int(_)` on a nonnegative binary64 value: truncation toward
zero. -/
def dblTruncToNat (x : Dbl) : Nat :=
  if 0 ≤ x.g then x.m * 2 ^ x.g.toNat else x.m / 2 ^ (-x.g).toNat

/-- `int((resolved_todos / total_todos * 100)) if total_todos > 0 else 0`
from `TodoListView.get_context_data`, with Python float semantics
embedded exactly. -/
def completion_percentage (resolved total : Nat) : Nat :=
  if 0 < total then dblTruncToNat (dblMulNat (pyDiv resolved total) 100) else 0

/-- The completion percentage the spec prescribes: `⌊resolved/total·100⌋`
in exact integer arithmetic, `0` when `total = 0`. -/
def completion_percentage_exact (resolved total : Nat) : Nat :=
  if 0 < total then resolved * 100 / total else 0

/-! ## The five request handlers (`todos/views.py`) -/

/-- The template context built by `TodoListView.get_context_data`. -/
structure ListContext where
  todos : List Todo
  total_todos : Nat
  resolved_todos : Nat
  completion : Nat
deriving DecidableEq

/-- `TodoListView`: fetch all rows in default order and derive the three
display values. -/
def get_context_data (s : Store) : ListContext :=
  let q := objectsAll s
  let total := q.length
  let resolved := (q.filter (fun t => t.is_resolved)).length
  { todos := q
    total_todos := total
    resolved_todos := resolved
    completion := completion_percentage resolved total }

/-- `TodoCreateView` POST: validate through the create form (which has no
`is_resolved` field), persist a fresh row with `is_resolved = false` and
redirect to `success_url`, or re-render the form with errors. -/
def createSubmit (s : Store) (sub : Submission) : Store × Resp :=
  match validate false sub with
  | Except.error errs => (s, Resp.ok errs)
  | Except.ok c =>
    (objectsCreate s c.title c.description c.due_date false, Resp.redirect todo_list_url)

/-- `TodoUpdateView` POST: look up the row (404 when absent), validate the
full `TodoForm`, overwrite the row's form fields and redirect, or
re-render the form with errors leaving the store unchanged. -/
def updateSubmit (s : Store) (pk : Nat) (sub : Submission) : Store × Resp :=
  match findTodo s pk with
  | none => (s, Resp.notFound)
  | some _ =>
    match validate true sub with
    | Except.error errs => (s, Resp.ok errs)
    | Except.ok c =>
      ({ s with todos := setById s.todos pk (fun t =>
          { t with title := c.title, description := c.description,
                   due_date := c.due_date, is_resolved := c.is_resolved }) },
       Resp.redirect todo_list_url)

/-- `TodoDeleteView` POST: look up the row (404 when absent), delete it
and redirect to `success_url`. -/
def deleteSubmit (s : Store) (pk : Nat) : Store × Resp :=
  match findTodo s pk with
  | none => (s, Resp.notFound)
  | some _ =>
    ({ s with todos := s.todos.filter (fun t => !(t.id == pk)) },
     Resp.redirect todo_list_url)

/-- Flip the resolved flag of one row (`todo.is_resolved = not todo.is_resolved`). -/
def flipResolved (t : Todo) : Todo := { t with is_resolved := !t.is_resolved }

/-- `toggle_resolved` from `todos/views.py`: `get_object_or_404`, flip
`is_resolved`, save, redirect to the list view. -/
def toggle_resolved (s : Store) (pk : Nat) : Store × Resp :=
  match findTodo s pk with
  | none => (s, Resp.notFound)
  | some _ =>
    ({ s with todos := setById s.todos pk flipResolved }, Resp.redirect todo_list_url)

/-- Missing / empty / whitespace-only `title` submission, as a Boolean
predicate on the raw field. -/
def titleMissing (raw : Option String) : Bool :=
  match raw with
  | none => true
  | some s => strip s == ""

/-! ## Concrete scenario stores -/

/-- A store of 100 rows of which 29 are resolved (ids and creation
stamps 1..100). -/
def percentStore : Store :=
  { todos := (List.range 100).map (fun i =>
      { id := i + 1, title := "task", description := none, due_date := none,
        is_resolved := decide (i < 29), created_at := i + 1 })
    counter := 101 }

/-- The store built by `TodoModelTest.test_todo_ordering` in
`todos/tests.py`: `setUp` creates "Test Todo" first, the test body then
creates "Older Todo" (which is therefore the younger row). -/
def orderingTestStore : Store :=
  objectsCreate
    (objectsCreate emptyStore "Test Todo" (some "Test description") (some (2026, 10, 19)) false)
    "Older Todo" none none false

/-- Submission of an explicit `is_resolved = true` with a fresh title,
used to exercise the create path. -/
def resolvedTrueSub : Submission :=
  { title := some "Buy milk", description := none, due_date := none, is_resolved := some true }

/-- The row the create path persists from `resolvedTrueSub` on a fresh
store. -/
def milkTodo : Todo :=
  { id := 1, title := "Buy milk", description := none, due_date := none,
    is_resolved := false, created_at := 1 }

/-- A one-row store used by concrete witnesses. -/
def sampleTodo : Todo :=
  { id := 1, title := "Sample", description := some "text", due_date := none,
    is_resolved := false, created_at := 1 }

/-- A one-row store used by concrete witnesses. -/
def sampleStore : Store := { todos := [sampleTodo], counter := 2 }

/-- A submission with no title at all. -/
def noTitleSub : Submission :=
  { title := none, description := some "No title", due_date := none, is_resolved := none }

/-- Equality of validation results is decidable (used by witnesses). -/
instance instDecEqExcept {α β : Type} [DecidableEq α] [DecidableEq β] :
    DecidableEq (Except α β) := fun a b => by
  cases a with
  | error x =>
    cases b with
    | error y => exact if h : x = y then isTrue (by rw [h]) else isFalse (by simp [h])
    | ok y => exact isFalse (by simp)
  | ok x =>
    cases b with
    | error y => exact isFalse (by simp)
    | ok y => exact if h : x = y then isTrue (by rw [h]) else isFalse (by simp [h])

/-- A fully valid submission used to exercise the success paths. -/
def goodSub : Submission :=
  { title := some "New Todo", description := some "New description",
    due_date := none, is_resolved := none }

/-- The cleaned values of `goodSub`. -/
def goodClean : CleanedForm :=
  { title := "New Todo", description := some "New description",
    due_date := none, is_resolved := false }

/-- C1: the claim says the computed completion percentage always equals
`⌊R/N·100⌋` in exact integer arithmetic. The view computes it with
Python float arithmetic, and at 100 rows with 29 resolved the float
product `29/100 * 100` is `28.999999999999996`, so `int` truncates to
28 while the exact floor is 29. -/
theorem completion_float_deviates_from_exact_floor :
    (get_context_data percentStore).total_todos = 100
    ∧ (get_context_data percentStore).resolved_todos = 29
    ∧ (get_context_data percentStore).completion = 28
    ∧ completion_percentage_exact 29 100 = 29 := by decide

/-- C2: replaying `TodoModelTest.test_todo_ordering` against the
spec-mandated ascending `created_at` ordering lists the older row
"Test Todo" first, while the repository test asserts the younger row
"Older Todo" comes first — the test contradicts the claimed ordering. -/
theorem test_todo_ordering_contradicts_ascending_order :
    ((get_context_data orderingTestStore).todos.map Todo.title) = ["Test Todo", "Older Todo"]
    ∧ ((get_context_data orderingTestStore).todos.map Todo.title) ≠ ["Older Todo", "Test Todo"] := by
  decide

/-! ## Helper lemmas -/

/-- Flipping the resolved flag preserves the primary key. -/
theorem flipResolved_id (t : Todo) : (flipResolved t).id = t.id := rfl

/-- Flipping the resolved flag twice is the identity on rows. -/
theorem flipResolved_flipResolved (t : Todo) : flipResolved (flipResolved t) = t := by
  cases t with
  | mk i ti de du r c => simp [flipResolved]

/-- Looking a row up after an UPDATE by the same key finds the updated
row, for any field transformation preserving the key. -/
theorem find?_setById (pk : Nat) (f : Todo → Todo) (hf : ∀ t, (f t).id = t.id)
    (l : List Todo) :
    (setById l pk f).find? (fun t => t.id == pk)
      = (l.find? (fun t => t.id == pk)).map f := by
  induction l with
  | nil => rfl
  | cons h rest ih =>
    by_cases hid : h.id = pk
    · simp only [setById, List.map_cons, if_pos hid]
      rw [List.find?_cons_of_pos _ (by simp [hf, hid]),
          List.find?_cons_of_pos _ (by simp [hid])]
      rfl
    · simp only [setById, List.map_cons, if_neg hid]
      rw [List.find?_cons_of_neg _ (by simp [hid]),
          List.find?_cons_of_neg _ (by simp [hid])]
      exact ih

/-- After deleting every row with key `pk`, no row with key `pk` is found. -/
theorem find?_filter_ne (pk : Nat) (l : List Todo) :
    (l.filter (fun t => !(t.id == pk))).find? (fun t => t.id == pk) = none := by
  induction l with
  | nil => rfl
  | cons h rest ih =>
    by_cases hid : h.id = pk
    · rw [show List.filter (fun t => !(t.id == pk)) (h :: rest)
            = List.filter (fun t => !(t.id == pk)) rest from by
          simp [List.filter_cons, hid]]
      exact ih
    · rw [show List.filter (fun t => !(t.id == pk)) (h :: rest)
            = h :: List.filter (fun t => !(t.id == pk)) rest from by
          simp [List.filter_cons, hid]]
      rw [List.find?_cons_of_neg _ (by simp [hid])]
      exact ih

/-- A missing / empty / whitespace-only title cleans to the required-field
error. -/
theorem cleanTitle_of_titleMissing (raw : Option String) (h : titleMissing raw = true) :
    cleanTitle raw = Except.error requiredFieldError := by
  cases raw with
  | none => rfl
  | some s =>
    have hs : strip s = "" := by simpa [titleMissing] using h
    simp [cleanTitle, hs]

/-- A submission with a bad title fails validation with a title error,
on either form. -/
theorem validate_titleMissing (b : Bool) (sub : Submission)
    (h : titleMissing sub.title = true) :
    ∃ errs, validate b sub = Except.error errs ∧ ("title", requiredFieldError) ∈ errs := by
  have ht := cleanTitle_of_titleMissing sub.title h
  cases hd : cleanDueDate sub.due_date with
  | error e2 =>
    exact ⟨[("title", requiredFieldError), ("due_date", e2)],
      by simp [validate, ht, hd], by simp⟩
  | ok dd =>
    exact ⟨[("title", requiredFieldError)], by simp [validate, ht, hd], by simp⟩

/-! ## Claim theorems -/

/-- C3: the create form has no `is_resolved` field, the create operation
ignores any submitted `is_resolved` value, and every row the create
operation persists has `is_resolved = false`. -/
theorem create_ignores_is_resolved :
    (("is_resolved" ∈ createFormFields) → False)
    ∧ (∀ (s : Store) (sub : Submission) (b : Option Bool),
        createSubmit s sub = createSubmit s { sub with is_resolved := b })
    ∧ (∀ (s : Store) (sub : Submission) (nt : Todo),
        nt ∈ (createSubmit s sub).1.todos → nt ∉ s.todos → nt.is_resolved = false) := by
  refine ⟨by decide, ?_, ?_⟩
  · intro s sub b
    cases ht : cleanTitle sub.title <;> cases hd : cleanDueDate sub.due_date <;>
      simp [createSubmit, validate, ht, hd]
  · intro s sub nt hmem hnot
    cases hv : validate false sub with
    | error errs => simp [createSubmit, hv] at hmem; exact absurd hmem hnot
    | ok c =>
      simp [createSubmit, hv, objectsCreate] at hmem
      rcases hmem with hold | hnew
      · exact absurd hold hnot
      · rw [hnew]


/-- C3 witness: submitting `is_resolved = true` on a fresh store persists
a row with `is_resolved = false`. -/
theorem create_ignores_is_resolved_witness :
    createSubmit emptyStore resolvedTrueSub
        = createSubmit emptyStore { resolvedTrueSub with is_resolved := none }
    ∧ milkTodo ∈ (createSubmit emptyStore resolvedTrueSub).1.todos
    ∧ milkTodo.is_resolved = false :=
  ⟨create_ignores_is_resolved.2.1 emptyStore resolvedTrueSub none,
   by decide,
   create_ignores_is_resolved.2.2 emptyStore resolvedTrueSub milkTodo (by decide) (by decide)⟩

/-- C4: a create or update submission whose title is missing, empty or
whitespace-only changes nothing, re-renders the form with an ok status,
and carries a title error with the required-field message (the update
half targets an existing row; a nonexistent identifier is the not-found
case of C5). -/
theorem bad_title_rejected (s : Store) (sub : Submission)
    (h : titleMissing sub.title = true) :
    (∃ errs, createSubmit s sub = (s, Resp.ok errs) ∧ ("title", requiredFieldError) ∈ errs)
    ∧ (∀ pk t, findTodo s pk = some t →
        ∃ errs, updateSubmit s pk sub = (s, Resp.ok errs)
          ∧ ("title", requiredFieldError) ∈ errs) := by
  constructor
  · rcases validate_titleMissing false sub h with ⟨errs, hv, hmem⟩
    exact ⟨errs, by simp [createSubmit, hv], hmem⟩
  · intro pk t hfind
    rcases validate_titleMissing true sub h with ⟨errs, hv, hmem⟩
    exact ⟨errs, by simp [updateSubmit, hfind, hv], hmem⟩


/-- C4 witness: a titleless create and a titleless update on an existing
row both leave the store unchanged and report the title error. -/
theorem bad_title_rejected_witness :
    (∃ errs, createSubmit sampleStore noTitleSub = (sampleStore, Resp.ok errs)
      ∧ ("title", requiredFieldError) ∈ errs)
    ∧ (∃ errs, updateSubmit sampleStore 1 noTitleSub = (sampleStore, Resp.ok errs)
      ∧ ("title", requiredFieldError) ∈ errs) :=
  ⟨(bad_title_rejected sampleStore noTitleSub (by decide)).1,
   (bad_title_rejected sampleStore noTitleSub (by decide)).2 1 sampleTodo (by decide)⟩

/-- Unfolding `updateSubmit` on a missing identifier. -/
theorem updateSubmit_notFound (s : Store) (pk : Nat) (sub : Submission)
    (h : findTodo s pk = none) : updateSubmit s pk sub = (s, Resp.notFound) := by
  simp [updateSubmit, h]

/-- Unfolding `deleteSubmit` on a missing identifier. -/
theorem deleteSubmit_notFound (s : Store) (pk : Nat)
    (h : findTodo s pk = none) : deleteSubmit s pk = (s, Resp.notFound) := by
  simp [deleteSubmit, h]

/-- Unfolding `toggle_resolved` on a missing identifier. -/
theorem toggle_notFound (s : Store) (pk : Nat)
    (h : findTodo s pk = none) : toggle_resolved s pk = (s, Resp.notFound) := by
  simp [toggle_resolved, h]

/-- Unfolding `deleteSubmit` on a present identifier. -/
theorem deleteSubmit_found (s : Store) (pk : Nat) (t : Todo)
    (h : findTodo s pk = some t) :
    deleteSubmit s pk
      = ({ s with todos := s.todos.filter (fun x => !(x.id == pk)) },
         Resp.redirect todo_list_url) := by
  simp [deleteSubmit, h]

/-- Unfolding `toggle_resolved` on a present identifier. -/
theorem toggle_found (s : Store) (pk : Nat) (t : Todo)
    (h : findTodo s pk = some t) :
    toggle_resolved s pk
      = ({ s with todos := setById s.todos pk flipResolved },
         Resp.redirect todo_list_url) := by
  simp [toggle_resolved, h]

/-- A lookup after a toggle finds the flipped row. -/
theorem findTodo_toggle (s : Store) (pk : Nat) (t : Todo)
    (h : findTodo s pk = some t) :
    findTodo (toggle_resolved s pk).1 pk = some (flipResolved t) := by
  rw [toggle_found s pk t h]
  show (setById s.todos pk flipResolved).find? (fun x => x.id == pk) = _
  rw [find?_setById pk flipResolved flipResolved_id]
  have h2 : List.find? (fun x => x.id == pk) s.todos = some t := h
  rw [h2]
  rfl

/-- C5: update, delete and toggle on an identifier matching no row
respond not-found and leave the store unchanged; and once a row is
deleted, a subsequent update, delete or toggle on its identifier is
not-found with the store unchanged. -/
theorem missing_identifier_not_found (s : Store) (pk : Nat) (sub : Submission) :
    (findTodo s pk = none →
        updateSubmit s pk sub = (s, Resp.notFound)
        ∧ deleteSubmit s pk = (s, Resp.notFound)
        ∧ toggle_resolved s pk = (s, Resp.notFound))
    ∧ (∀ t, findTodo s pk = some t →
        findTodo (deleteSubmit s pk).1 pk = none
        ∧ updateSubmit (deleteSubmit s pk).1 pk sub = ((deleteSubmit s pk).1, Resp.notFound)
        ∧ deleteSubmit (deleteSubmit s pk).1 pk = ((deleteSubmit s pk).1, Resp.notFound)
        ∧ toggle_resolved (deleteSubmit s pk).1 pk = ((deleteSubmit s pk).1, Resp.notFound)) := by
  constructor
  · intro hnone
    exact ⟨updateSubmit_notFound s pk sub hnone, deleteSubmit_notFound s pk hnone,
           toggle_notFound s pk hnone⟩
  · intro t hsome
    have hgone : findTodo (deleteSubmit s pk).1 pk = none := by
      rw [deleteSubmit_found s pk t hsome]
      exact find?_filter_ne pk s.todos
    exact ⟨hgone, updateSubmit_notFound _ pk sub hgone, deleteSubmit_notFound _ pk hgone,
           toggle_notFound _ pk hgone⟩

/-- C5 witness: identifier 7 matches no row of the sample store, and
after deleting row 1 every operation on identifier 1 is not-found. -/
theorem missing_identifier_not_found_witness :
    (updateSubmit sampleStore 7 noTitleSub = (sampleStore, Resp.notFound)
      ∧ deleteSubmit sampleStore 7 = (sampleStore, Resp.notFound)
      ∧ toggle_resolved sampleStore 7 = (sampleStore, Resp.notFound))
    ∧ (findTodo (deleteSubmit sampleStore 1).1 1 = none
      ∧ updateSubmit (deleteSubmit sampleStore 1).1 1 noTitleSub
          = ((deleteSubmit sampleStore 1).1, Resp.notFound)
      ∧ deleteSubmit (deleteSubmit sampleStore 1).1 1
          = ((deleteSubmit sampleStore 1).1, Resp.notFound)
      ∧ toggle_resolved (deleteSubmit sampleStore 1).1 1
          = ((deleteSubmit sampleStore 1).1, Resp.notFound)) :=
  ⟨(missing_identifier_not_found sampleStore 7 noTitleSub).1 (by decide),
   (missing_identifier_not_found sampleStore 1 noTitleSub).2 sampleTodo (by decide)⟩

/-- C6: toggling flips the resolved flag of the identified row, and
toggling twice returns exactly the original row, so the flag returns to
its original value. -/
theorem toggle_twice_restores (s : Store) (pk : Nat) (t : Todo)
    (h : findTodo s pk = some t) :
    findTodo (toggle_resolved s pk).1 pk = some (flipResolved t)
    ∧ (flipResolved t).is_resolved = !t.is_resolved
    ∧ findTodo (toggle_resolved (toggle_resolved s pk).1 pk).1 pk = some t := by
  have hf1 := findTodo_toggle s pk t h
  refine ⟨hf1, rfl, ?_⟩
  have hf2 := findTodo_toggle (toggle_resolved s pk).1 pk (flipResolved t) hf1
  rw [flipResolved_flipResolved] at hf2
  exact hf2

/-- C6 witness: toggling row 1 of the sample store twice restores the
original row. -/
theorem toggle_twice_restores_witness :
    findTodo (toggle_resolved sampleStore 1).1 1 = some (flipResolved sampleTodo)
    ∧ (flipResolved sampleTodo).is_resolved = !sampleTodo.is_resolved
    ∧ findTodo (toggle_resolved (toggle_resolved sampleStore 1).1 1).1 1 = some sampleTodo :=
  toggle_twice_restores sampleStore 1 sampleTodo (by decide)

/-- C7: toggling changes at most the `is_resolved` field of rows with the
targeted key: row for row, `id`, `title`, `description`, `due_date` and
`created_at` are unchanged, rows with a different key are entirely
unchanged, and the counter is unchanged. -/
theorem toggle_frame (s : Store) (pk : Nat) (t : Todo)
    (h : findTodo s pk = some t) :
    (toggle_resolved s pk).1.counter = s.counter
    ∧ List.Forall₂ (fun a b =>
        b.id = a.id ∧ b.title = a.title ∧ b.description = a.description
        ∧ b.due_date = a.due_date ∧ b.created_at = a.created_at
        ∧ (a.id ≠ pk → b = a))
      s.todos (toggle_resolved s pk).1.todos := by
  rw [toggle_found s pk t h]
  refine ⟨rfl, ?_⟩
  show List.Forall₂ _ s.todos (setById s.todos pk flipResolved)
  induction s.todos with
  | nil => exact List.Forall₂.nil
  | cons hd rest ih =>
    rw [show setById (hd :: rest) pk flipResolved
        = (if hd.id = pk then flipResolved hd else hd) :: setById rest pk flipResolved from rfl]
    refine List.Forall₂.cons ?_ ih
    by_cases hid : hd.id = pk
    · rw [if_pos hid]
      exact ⟨rfl, rfl, rfl, rfl, rfl, fun hne => absurd hid hne⟩
    · rw [if_neg hid]
      exact ⟨rfl, rfl, rfl, rfl, rfl, fun _ => rfl⟩

/-- C7 witness: toggling row 1 of the sample store keeps the counter and
every field of the row except its resolved flag. -/
theorem toggle_frame_witness :
    (toggle_resolved sampleStore 1).1.counter = sampleStore.counter
    ∧ List.Forall₂ (fun a b =>
        b.id = a.id ∧ b.title = a.title ∧ b.description = a.description
        ∧ b.due_date = a.due_date ∧ b.created_at = a.created_at
        ∧ (a.id ≠ 1 → b = a))
      sampleStore.todos (toggle_resolved sampleStore 1).1.todos :=
  toggle_frame sampleStore 1 sampleTodo (by decide)

/-- C8: a create submission with a valid title and no other fields
succeeds with a redirect and persists one new row whose `description`
and `due_date` are absent and whose `is_resolved` is `false`. -/
theorem create_minimal_fields (s : Store) (t : String) (h : strip t ≠ "") :
    ∃ nt : Todo,
      createSubmit s { title := some t, description := none, due_date := none,
                       is_resolved := none }
        = ({ todos := s.todos ++ [nt], counter := s.counter + 1 },
           Resp.redirect todo_list_url)
      ∧ nt.title = strip t ∧ nt.description = none ∧ nt.due_date = none
      ∧ nt.is_resolved = false := by
  refine ⟨{ id := s.counter, title := strip t, description := none, due_date := none,
            is_resolved := false, created_at := s.counter }, ?_, rfl, rfl, rfl, rfl⟩
  simp [createSubmit, validate, cleanTitle, cleanDueDate, cleanDescription, h, objectsCreate]

/-- C8 witness: creating with title "Buy milk" and nothing else on a
fresh store persists exactly one minimal unresolved row. -/
theorem create_minimal_fields_witness :
    ∃ nt : Todo,
      createSubmit emptyStore { title := some "Buy milk", description := none,
                                due_date := none, is_resolved := none }
        = ({ todos := emptyStore.todos ++ [nt], counter := emptyStore.counter + 1 },
           Resp.redirect todo_list_url)
      ∧ nt.title = strip "Buy milk" ∧ nt.description = none ∧ nt.due_date = none
      ∧ nt.is_resolved = false :=
  create_minimal_fields emptyStore "Buy milk" (by decide)

/-- C9: every successful mutating submission — create, update, delete or
toggle — responds with a redirect, and every redirect any of the four
operations ever issues targets the list route `/`. -/
theorem success_redirects_to_list_route (s : Store) (sub : Submission) (pk : Nat) :
    (∀ c, validate false sub = Except.ok c → (createSubmit s sub).2 = Resp.redirect "/")
    ∧ (∀ t c, findTodo s pk = some t → validate true sub = Except.ok c →
        (updateSubmit s pk sub).2 = Resp.redirect "/")
    ∧ (∀ t, findTodo s pk = some t → (deleteSubmit s pk).2 = Resp.redirect "/")
    ∧ (∀ t, findTodo s pk = some t → (toggle_resolved s pk).2 = Resp.redirect "/")
    ∧ (∀ p, ((createSubmit s sub).2 = Resp.redirect p
          ∨ (updateSubmit s pk sub).2 = Resp.redirect p
          ∨ (deleteSubmit s pk).2 = Resp.redirect p
          ∨ (toggle_resolved s pk).2 = Resp.redirect p) → p = "/") := by
  refine ⟨?_, ?_, ?_, ?_, ?_⟩
  · intro c hv
    simp [createSubmit, hv, todo_list_url]
  · intro t c hf hv
    simp [updateSubmit, hf, hv, todo_list_url]
  · intro t hf
    rw [deleteSubmit_found s pk t hf]
    rfl
  · intro t hf
    rw [toggle_found s pk t hf]
    rfl
  · intro p hp
    rcases hp with h1 | h1 | h1 | h1
    · cases hv : validate false sub <;> simp [createSubmit, hv, todo_list_url] at h1
      all_goals exact h1.symm
    · cases hf : findTodo s pk with
      | none => simp [updateSubmit, hf] at h1
      | some t =>
        cases hv : validate true sub <;> simp [updateSubmit, hf, hv, todo_list_url] at h1
        all_goals exact h1.symm
    · cases hf : findTodo s pk with
      | none => simp [deleteSubmit, hf] at h1
      | some t =>
        simp [deleteSubmit, hf, todo_list_url] at h1
        exact h1.symm
    · cases hf : findTodo s pk with
      | none => simp [toggle_resolved, hf] at h1
      | some t =>
        simp [toggle_resolved, hf, todo_list_url] at h1
        exact h1.symm


/-- C9 witness: on the sample store, a valid create, a valid update of
row 1, a delete of row 1 and a toggle of row 1 all redirect to `/`. -/
theorem success_redirects_to_list_route_witness :
    (createSubmit sampleStore goodSub).2 = Resp.redirect "/"
    ∧ (updateSubmit sampleStore 1 goodSub).2 = Resp.redirect "/"
    ∧ (deleteSubmit sampleStore 1).2 = Resp.redirect "/"
    ∧ (toggle_resolved sampleStore 1).2 = Resp.redirect "/" :=
  ⟨(success_redirects_to_list_route sampleStore goodSub 1).1 goodClean (by decide),
   (success_redirects_to_list_route sampleStore goodSub 1).2.1 sampleTodo goodClean
     (by decide) (by decide),
   (success_redirects_to_list_route sampleStore goodSub 1).2.2.1 sampleTodo (by decide),
   (success_redirects_to_list_route sampleStore goodSub 1).2.2.2.1 sampleTodo (by decide)⟩

/-- C10: the routing layer constrains the identifier segment of the
update, delete and toggle routes to a nonempty digit string, so a
request whose identifier segment is not an integer resolves to no
handler at all. -/
theorem non_integer_pk_not_routed (p : String) (h : isIntParam p = false) :
    resolvePath [p, "update"] = none
    ∧ resolvePath [p, "delete"] = none
    ∧ resolvePath [p, "toggle"] = none := by
  refine ⟨?_, ?_, ?_⟩ <;> simp [resolvePath, h]

/-- C10 witness: the non-integer identifier "abc" resolves to no handler
on any of the three identifier-carrying routes. -/
theorem non_integer_pk_not_routed_witness :
    resolvePath ["abc", "update"] = none
    ∧ resolvePath ["abc", "delete"] = none
    ∧ resolvePath ["abc", "toggle"] = none :=
  non_integer_pk_not_routed "abc" (by decide)
